import Mathlib

/-!
Verification of the TalentFlow mock data layer (`MockAPI` and the view-level
optimistic-update handlers) against its natural-language specification.

The JavaScript source is shallowly embedded:
* IndexedDB collections are modelled as Lean lists.  Per the specification
  (§4.1) `getAll` returns records in insertion (creation) order, so a stored
  snapshot is a `List` in creation order.
* `Math.random()` outcomes are passed in explicitly: each operation that can
  be failure-injected takes a `fail : Bool` (the sampled `Math.random() < 0.05`
  outcome inside `MockAPI.delay`), and the seeding routine takes an oracle of
  sampled values.
* JavaScript exceptions become `Except`; the latency part of `delay` has no
  observable effect in this embedding and is dropped.
* For the update/create paths, where JavaScript object-spread semantics over
  arbitrary patches matter, records are modelled as key/value association
  lists (`Obj`); for the query, seeding and view paths, whose records always
  carry the full schema, records are modelled as Lean structures.
-/

/-- JavaScript `String.prototype.includes` on the character lists: `needle`
occurs contiguously inside `hay`. -/
def substrSearch (needle : List Char) : List Char → Bool
  | [] => needle.isEmpty
  | c :: rest => needle.isPrefixOf (c :: rest) || substrSearch needle rest

/-- JavaScript `hay.includes(needle)` for strings. -/
def strIncludes (hay needle : String) : Bool :=
  substrSearch needle.toList hay.toList

/-- JavaScript `String.prototype.toLowerCase` (ASCII case mapping, which
covers every string the source produces). -/
def jsToLower (s : String) : String :=
  ⟨s.toList.map Char.toLower⟩

/-- JavaScript `String.prototype.trim`: strip leading and trailing
whitespace. -/
def jsTrim (s : String) : String :=
  ⟨((s.toList.dropWhile Char.isWhitespace).reverse.dropWhile
      Char.isWhitespace).reverse⟩

/-- Accumulator loop for `jsSplit`. -/
def splitAux (sep : Char) : List Char → List Char → List String
  | [], acc => [⟨acc.reverse⟩]
  | c :: cs, acc =>
      if c = sep then ⟨acc.reverse⟩ :: splitAux sep cs []
      else splitAux sep cs (c :: acc)

/-- JavaScript `String.prototype.split` with a one-character separator. -/
def jsSplit (s : String) (sep : Char) : List String :=
  splitAux sep s.toList []

/-- JavaScript `parseInt(x) || d`: an absent (`NaN`) or zero value falls back
to the default `d`.  Mirrors `parseInt(params.page) || 1` and
`parseInt(params.pageSize) || 10` in `MockAPI.getJobs` / `getCandidates`. -/
def jsOr (v : Option Nat) (d : Nat) : Nat :=
  match v with
  | some n => if n = 0 then d else n
  | none => d

/-- JavaScript `Array.prototype.slice(s, e)` for `0 ≤ s ≤ e`. -/
def jsSlice (l : List α) (s e : Nat) : List α :=
  (l.drop s).take (e - s)

/-- `Math.ceil(a / b)` on naturals (`b > 0` in all call sites:
`totalPages: Math.ceil(total / pageSize)`). -/
def ceilDiv (a b : Nat) : Nat := (a + b - 1) / b

/-- Job record as created by `MockAPI.seedData` / `createJob`.  `createdAt`
is a timestamp in milliseconds. -/
structure Job where
  id : String
  title : String
  slug : String
  status : String
  tags : List String
  order : Nat
  description : String
  createdAt : Nat
  deriving DecidableEq, Repr

/-- Candidate record as created by `MockAPI.seedData`. -/
structure Candidate where
  id : String
  name : String
  email : String
  stage : String
  jobId : String
  appliedAt : Nat
  notes : List String
  deriving DecidableEq, Repr

/-- Question `validation` field: `{min, max}` for numeric questions,
`{maxLength}` otherwise (the only two shapes `seedData` produces). -/
inductive Validation where
  | bounds (min max : Nat)
  | maxLen (n : Nat)
  deriving DecidableEq, Repr

/-- Assessment question as created by `MockAPI.seedData`. -/
structure Question where
  id : String
  type : String
  question : String
  required : Bool
  options : Option (List String)
  validation : Validation
  deriving DecidableEq, Repr

/-- Assessment section. -/
structure AssessmentSection where
  id : String
  title : String
  questions : List Question
  deriving DecidableEq, Repr

/-- Assessment record, keyed by `jobId`. -/
structure Assessment where
  jobId : String
  title : String
  sections : List AssessmentSection
  deriving DecidableEq, Repr

/-- Pagination block of a `PageResult`. -/
structure Pagination where
  page : Nat
  pageSize : Nat
  total : Nat
  totalPages : Nat
  deriving DecidableEq, Repr

/-- Result shape of `MockAPI.getJobs` / `getCandidates`. -/
structure PageResult (α : Type) where
  data : List α
  pagination : Pagination
  deriving DecidableEq, Repr

/-- Query parameters of `MockAPI.getJobs`.  JavaScript truthiness: an empty
string behaves like an absent filter, `0`/`NaN` pages fall back to defaults
(see `jsOr`). -/
structure JobParams where
  search : Option String := none
  status : Option String := none
  page : Option Nat := none
  pageSize : Option Nat := none
  deriving DecidableEq, Repr

/-- Query parameters of `MockAPI.getCandidates`. -/
structure CandidateParams where
  search : Option String := none
  stage : Option String := none
  page : Option Nat := none
  pageSize : Option Nat := none
  deriving DecidableEq, Repr

/-- First filtering step of `MockAPI.getJobs` (source lines 131–135):
`if (params.search) filtered = filtered.filter(job =>
job.title.toLowerCase().includes(params.search.toLowerCase()))` — the
JavaScript truthiness test makes an empty search string a no-op. -/
def jobsSearchStep (search : Option String) (jobs : List Job) : List Job :=
  match search with
  | some s => if s = "" then jobs else
      jobs.filter (fun job => strIncludes (jsToLower job.title) (jsToLower s))
  | none => jobs

/-- Second filtering step of `MockAPI.getJobs` (source lines 137–139):
`if (params.status) filtered = filtered.filter(job => job.status === params.status)`. -/
def jobsStatusStep (status : Option String) (jobs : List Job) : List Job :=
  match status with
  | some st => if st = "" then jobs else
      jobs.filter (fun job => job.status = st)
  | none => jobs

/-- The two sequential reassignments of `filtered` in `MockAPI.getJobs`. -/
def jobsFiltered (jobs : List Job) (params : JobParams) : List Job :=
  jobsStatusStep params.status (jobsSearchStep params.search jobs)

/-- Pagination-and-slice tail of `MockAPI.getJobs` (source lines 141–156). -/
def getJobsCore (jobs : List Job) (params : JobParams) : PageResult Job :=
  let filtered := jobsFiltered jobs params
  let total := filtered.length
  let page := jsOr params.page 1
  let pageSize := jsOr params.pageSize 10
  let start := (page - 1) * pageSize
  let en := start + pageSize
  { data := jsSlice filtered start en
    pagination :=
      { page := page
        pageSize := pageSize
        total := total
        totalPages := ceilDiv total pageSize } }

/-- First filtering step of `MockAPI.getCandidates` (source lines 207–213):
the lowered search term must occur in the lowered name or the lowered
email. -/
def candidatesSearchStep (search : Option String) (cands : List Candidate) :
    List Candidate :=
  match search with
  | some s => if s = "" then cands else
      let searchLower := jsToLower s
      cands.filter (fun c =>
        strIncludes (jsToLower c.name) searchLower ||
          strIncludes (jsToLower c.email) searchLower)
  | none => cands

/-- Second filtering step of `MockAPI.getCandidates` (source lines 215–217):
exact stage match. -/
def candidatesStageStep (stage : Option String) (cands : List Candidate) :
    List Candidate :=
  match stage with
  | some st => if st = "" then cands else
      cands.filter (fun c => c.stage = st)
  | none => cands

/-- The two sequential reassignments of `filtered` in `MockAPI.getCandidates`. -/
def candidatesFiltered (cands : List Candidate) (params : CandidateParams) :
    List Candidate :=
  candidatesStageStep params.stage (candidatesSearchStep params.search cands)

/-- Pagination-and-slice tail of `MockAPI.getCandidates` (source lines
219–234); the default page size is 50. -/
def getCandidatesCore (cands : List Candidate) (params : CandidateParams) :
    PageResult Candidate :=
  let filtered := candidatesFiltered cands params
  let total := filtered.length
  let page := jsOr params.page 1
  let pageSize := jsOr params.pageSize 50
  let start := (page - 1) * pageSize
  let en := start + pageSize
  { data := jsSlice filtered start en
    pagination :=
      { page := page
        pageSize := pageSize
        total := total
        totalPages := ceilDiv total pageSize } }

/-- Error values raised by the `MockAPI` paths modelled here:
`networkError` is the `new Error('Network error')` thrown inside `delay`,
`dataError` is the `DataError` IndexedDB throws when `put` cannot extract a
key from the record. -/
inductive JsErr where
  | networkError
  | dataError
  deriving DecidableEq, Repr

/-- `MockAPI.delay` (source lines 36–44): waits a random latency, then with
probability 0.05 throws `Network error`.  The sampled outcome of
`Math.random() < 0.05` is the `fail` argument; the latency itself is
unobservable here.  Note the source comment says `// 5% error rate on writes`
but the method is awaited by every operation, reads included. -/
def delay (fail : Bool) : Except JsErr Unit :=
  if fail then .error .networkError else .ok ()

/-- `MockAPI.getJobs` (source lines 117–156): `await delay()` then the pure
query over the jobs snapshot. -/
def getJobs (fail : Bool) (jobs : List Job) (params : JobParams) :
    Except JsErr (PageResult Job) :=
  (delay fail).bind fun _ => .ok (getJobsCore jobs params)

/-- `MockAPI.getCandidates` (source lines 193–234). -/
def getCandidates (fail : Bool) (cands : List Candidate)
    (params : CandidateParams) : Except JsErr (PageResult Candidate) :=
  (delay fail).bind fun _ => .ok (getCandidatesCore cands params)

/-- `MockAPI.getAssessment` (source lines 254–265): `await delay()` then
`store.get(jobId)` on the assessments collection (keyed by `jobId`). -/
def getAssessment (fail : Bool) (assessments : List Assessment)
    (jobId : String) : Except JsErr (Option Assessment) :=
  (delay fail).bind fun _ =>
    .ok (assessments.find? (fun a => a.jobId = jobId))

/-- Value universe for the raw JavaScript-object view of records: the values
the embedded mutation paths store (strings, numeric timestamps, booleans,
string lists such as `tags`, and `undefined`). -/
inductive JsVal where
  | vStr (s : String)
  | vNum (n : Nat)
  | vBool (b : Bool)
  | vStrs (l : List String)
  | vUndef
  deriving DecidableEq, Repr

/-- A JavaScript object as an association list of fields (keys unique in any
object the source builds). -/
abbrev Obj : Type := List (String × JsVal)

/-- Field lookup on an object (first binding wins, as in a JS object where
keys are unique). -/
def lookupObj (o : Obj) (k : String) : Option JsVal :=
  (o.find? (fun kv => kv.1 = k)).map (·.2)

/-- JavaScript object spread `{...a, ...b}`: the result has `a`'s keys in
order with `b`'s values where `b` overrides, followed by `b`'s new keys. -/
def mergeObj (a b : Obj) : Obj :=
  (a.map fun kv =>
    match lookupObj b kv.1 with
    | some v => (kv.1, v)
    | none => kv) ++
  b.filter (fun kv => (lookupObj a kv.1).isNone)

/-- IndexedDB `store.get(id)` on a collection whose `keyPath` is `id`:
the record whose `id` field equals the string key, if any. -/
def getObj (store : List Obj) (id : String) : Option Obj :=
  store.find? (fun r => lookupObj r "id" = some (.vStr id))

/-- Helper for `putObj`: replace the first record whose `id` equals `key`,
or append (IndexedDB `put` upsert; keys are unique in a real object store,
so at most one record matches). -/
def putByKey (key : JsVal) (rec : Obj) : List Obj → List Obj
  | [] => [rec]
  | r :: rs =>
      if lookupObj r "id" = some key then rec :: rs
      else r :: putByKey key rec rs

/-- IndexedDB `store.put(record)` on a store with `keyPath: 'id'`: throws
`DataError` synchronously when the record has no `id`, otherwise upserts
under the record's own `id`. -/
def putObj (store : List Obj) (rec : Obj) : Except JsErr (List Obj) :=
  match lookupObj rec "id" with
  | none => .error .dataError
  | some key => .ok (putByKey key rec store)

/-- Shared body of `MockAPI.updateJob` (source lines 175–191) and
`MockAPI.updateCandidate` (lines 236–252), which are textually identical up
to the collection they address: `await delay()`, `store.get(id)` (resolving
to `undefined` when the key is absent), shallow merge
`{ ...record, ...updates }` (the spread of `undefined` contributes nothing),
`store.put(merged)`, return the merged record. -/
def updateRecord (fail : Bool) (store : List Obj) (id : String)
    (updates : Obj) : Except JsErr (Obj × List Obj) :=
  (delay fail).bind fun _ =>
    let rec0 := getObj store id
    let updated := mergeObj (rec0.getD []) updates
    (putObj store updated).map fun store' => (updated, store')

/-- `MockAPI.updateJob` over the jobs collection. -/
def updateJob (fail : Bool) (store : List Obj) (id : String) (updates : Obj) :
    Except JsErr (Obj × List Obj) :=
  updateRecord fail store id updates

/-- `MockAPI.updateCandidate` over the candidates collection. -/
def updateCandidate (fail : Bool) (store : List Obj) (id : String)
    (updates : Obj) : Except JsErr (Obj × List Obj) :=
  updateRecord fail store id updates

/-- The record built by `MockAPI.createJob` (source lines 162–166):
`{ ...job, id: job-Date.now(), createdAt: new Date() }`; `now` is the sampled
`Date.now()` timestamp. -/
def mkNewJob (job : Obj) (now : Nat) : Obj :=
  mergeObj job
    [("id", .vStr ("job-" ++ toString now)), ("createdAt", .vNum now)]

/-- `MockAPI.createJob` (source lines 158–173): `await delay()`, build the
new record, `store.add(newJob)`, return it.  The `add` request is not
awaited: on a duplicate key the request errors asynchronously, the
transaction aborts (nothing is stored) and the method still resolves with
the record; otherwise the record is appended.  No field of the payload is
validated. -/
def createJob (fail : Bool) (store : List Obj) (job : Obj) (now : Nat) :
    Except JsErr (Obj × List Obj) :=
  (delay fail).bind fun _ =>
    let newJob := mkNewJob job now
    if store.any (fun r => lookupObj r "id" = lookupObj newJob "id") then
      .ok (newJob, store)
    else
      .ok (newJob, store ++ [newJob])

/-- Replace every maximal run of whitespace by a single `-`:
JavaScript `replace(/\s+/g, '-')`. -/
def slugChars (inRun : Bool) : List Char → List Char
  | [] => []
  | c :: cs =>
      if c.isWhitespace then
        (if inRun then [] else ['-']) ++ slugChars true cs
      else c :: slugChars false cs

/-- `formData.title.toLowerCase().replace(/\s+/g, '-')` from
`CreateJobModal.handleSubmit`. -/
def slugify (s : String) : String :=
  ⟨slugChars false (jsToLower s).toList⟩

/-- `formData.tags.split(',').map(t => t.trim()).filter(Boolean)`. -/
def splitTags (s : String) : List String :=
  ((jsSplit s ',').map jsTrim).filter (fun t => t ≠ "")

/-- State of the `CreateJobModal` form: all four fields are strings. -/
structure JobFormData where
  title : String
  slug : String
  tags : String
  status : String
  deriving DecidableEq, Repr

/-- The payload `CreateJobModal.handleSubmit` passes to `api.createJob`
(source lines 622–626): `{ ...formData, tags: split-and-trim,
slug: formData.slug || slugified-title }`.  The spread lists the form's keys
in declaration order with `tags` and `slug` overridden. -/
def buildPayload (fd : JobFormData) : Obj :=
  [("title", .vStr fd.title),
   ("slug", .vStr (if fd.slug = "" then slugify fd.title else fd.slug)),
   ("tags", .vStrs (splitTags fd.tags)),
   ("status", .vStr fd.status)]

/-- `CreateJobModal.handleSubmit` (source lines 612–634): a blank
(whitespace-only) title is rejected with an alert before any API call
(`none`); otherwise `api.createJob` is invoked with the built payload. -/
def handleSubmit (fail : Bool) (fd : JobFormData) (store : List Obj)
    (now : Nat) : Option (Except JsErr (Obj × List Obj)) :=
  if jsTrim fd.title = "" then none
  else some (createJob fail store (buildPayload fd) now)

/-- Observable state of `JobsView` relevant to the drag-reorder path:
the rendered `jobs` list and the `draggedJob` flag. -/
structure JobsViewState where
  jobs : List Job
  draggedJob : Option Job
  deriving DecidableEq, Repr

/-- `JobsView.loadJobs` (source lines 372–383): re-queries `api.getJobs`
with the current filters; on the injected failure the error is logged and
the rendered list is left unchanged.  `fail` is the sampled failure outcome
of the `getJobs` call's `delay`. -/
def loadJobsView (fail : Bool) (store : List Job) (filters : JobParams)
    (st : JobsViewState) : JobsViewState :=
  if fail then st
  else { st with jobs := (getJobsCore store filters).data }

/-- Speculative reorder inside `JobsView.handleDrop` (source lines 396–402):
both indices are computed on the current list, the dragged item is spliced
out, then inserted at the target's original index.  The dragged and target
jobs always come from the rendered list, so both `findIdx` calls succeed in
every reachable state. -/
def reorderList (jobs : List Job) (dragged target : Job) : List Job :=
  let draggedIndex := jobs.findIdx (fun j => j.id = dragged.id)
  let targetIndex := jobs.findIdx (fun j => j.id = target.id)
  let draggedItem := jobs.getD draggedIndex dragged
  (jobs.eraseIdx draggedIndex).insertIdx targetIndex draggedItem

/-- Speculative phase of `JobsView.handleDrop` (source lines 393–403): the
guard returns unchanged when nothing is dragged or the drop target is the
dragged job itself; otherwise the optimistic reorder is rendered
immediately. -/
def applyOptimistic (st : JobsViewState) (target : Job) : JobsViewState :=
  match st.draggedJob with
  | none => st
  | some dragged =>
      if dragged.id = target.id then st
      else { st with jobs := reorderList st.jobs dragged target }

/-- Settle phase of `JobsView.handleDrop` (source lines 405–420): the
simulated reorder call either succeeds (no further effect — nothing is
persisted and no reload happens) or fails, in which case the catch block
re-queries via `loadJobs` (whose own `delay` may fail: `reloadFail`) and
surfaces an alert; `setDraggedJob(null)` runs in both cases.  The returned
`Bool` records whether the failure alert was shown. -/
def settleDrop (failed reloadFail : Bool) (store : List Job)
    (filters : JobParams) (st : JobsViewState) : JobsViewState × Bool :=
  if failed then
    let st' := loadJobsView reloadFail store filters st
    ({ st' with draggedJob := none }, true)
  else ({ st with draggedJob := none }, false)

/-- Whole `JobsView.handleDrop` (source lines 393–421) for a single drop:
guard, speculative reorder, then settle.  `failed` is the sampled
`Math.random() < 0.1` outcome of the simulated reorder call, `reloadFail`
the sampled failure of the rollback reload. -/
def handleDrop (failed reloadFail : Bool) (store : List Job)
    (filters : JobParams) (st : JobsViewState) (target : Job) :
    JobsViewState × Bool :=
  match st.draggedJob with
  | none => (st, false)
  | some dragged =>
      if dragged.id = target.id then (st, false)
      else
        settleDrop failed reloadFail store filters
          { st with jobs := reorderList st.jobs dragged target }

/-- Sampled `Math.random()` outcomes consumed by `MockAPI.seedData`, one
stream per call site: `jobStatus i` is `Math.random() > 0.3` for job `i`,
`jobTagCount i` is `Math.floor(Math.random() * 3)`, `candStage i` is
`Math.floor(Math.random() * 6)`, `candJob i` is
`Math.floor(Math.random() * 25)`; the `created`/`applied` streams are the
already-computed random timestamps. -/
structure SeedOracle where
  jobStatus : Nat → Bool
  jobTagCount : Nat → Nat
  jobCreated : Nat → Nat
  candStage : Nat → Nat
  candJob : Nat → Nat
  candApplied : Nat → Nat

/-- The five cyclic job title templates of `seedData`. -/
def jobTitles : List String :=
  ["Frontend Developer", "Backend Engineer", "Full Stack Developer",
   "DevOps Engineer", "Product Manager"]

/-- The tag pool of `seedData`. -/
def tagPool : List String := ["React", "Node.js", "TypeScript", "AWS", "Python"]

/-- One seeded job (source lines 65–74): `order: i + 1`, cyclic title,
randomized status (`Math.random() > 0.3 ? 'active' : 'archived'`) and tag
prefix of length `Math.floor(Math.random() * 3) + 1`. -/
def seedJob (o : SeedOracle) (i : Nat) : Job :=
  { id := "job-" ++ toString (i + 1)
    title := jobTitles.getD (i % 5) "" ++ " " ++ toString (i / 5 + 1)
    slug := "job-" ++ toString (i + 1) ++ "-slug"
    status := if o.jobStatus i then "active" else "archived"
    tags := tagPool.take (o.jobTagCount i % 3 + 1)
    order := i + 1
    description := "Lorem ipsum dolor sit amet, consectetur adipiscing elit."
    createdAt := o.jobCreated i }

/-- The 25 seeded jobs. -/
def seedJobs (o : SeedOracle) : List Job :=
  (List.range 25).map (seedJob o)

/-- The six candidate stages, in source order. -/
def stageNames : List String :=
  ["applied", "screen", "tech", "offer", "hired", "rejected"]

/-- One seeded candidate (source lines 80–88): randomized stage and a
`jobId` drawn uniformly from `job-1` … `job-25`. -/
def seedCandidate (o : SeedOracle) (i : Nat) : Candidate :=
  { id := "candidate-" ++ toString (i + 1)
    name := "Candidate " ++ toString (i + 1)
    email := "candidate" ++ toString (i + 1) ++ "@email.com"
    stage := stageNames.getD (o.candStage i % 6) ""
    jobId := "job-" ++ toString (o.candJob i % 25 + 1)
    appliedAt := o.candApplied i
    notes := [] }

/-- The 1000 seeded candidates. -/
def seedCandidates (o : SeedOracle) : List Candidate :=
  (List.range 1000).map (seedCandidate o)

/-- The six question types, in source order. -/
def questionTypes : List String :=
  ["single-choice", "multi-choice", "short-text", "long-text", "numeric",
   "file-upload"]

/-- One seeded question (source lines 101–110): types cycle through the six
kinds, the first six of twelve are required, choice types get the fixed
four-option scale, numeric types the 0–10 bounds, all others a 500-char
max length. -/
def seedQuestion (qIndex : Nat) : Question :=
  let t := questionTypes.getD (qIndex % 6) ""
  { id := "q-" ++ toString (qIndex + 1)
    type := t
    question := "Question " ++ toString (qIndex + 1) ++
      ": What is your experience with...?"
    required := decide (qIndex < 6)
    options :=
      if t = "single-choice" ∨ t = "multi-choice" then
        some ["Beginner", "Intermediate", "Advanced", "Expert"]
      else none
    validation := if t = "numeric" then .bounds 0 10 else .maxLen 500 }

/-- One seeded assessment for job `i` (source lines 95–112): a single
section of twelve questions. -/
def seedAssessment (i : Nat) : Assessment :=
  { jobId := "job-" ++ toString i
    title := "Assessment for Job " ++ toString i
    sections :=
      [{ id := "section-1"
         title := "Technical Skills"
         questions := (List.range 12).map seedQuestion }] }

/-- The three seeded assessments (`for (let i = 1; i <= 3; i++)`). -/
def seedAssessments : List Assessment :=
  [seedAssessment 1, seedAssessment 2, seedAssessment 3]

/-- The three durable collections of the store. -/
structure DB where
  jobs : List Job
  candidates : List Candidate
  assessments : List Assessment
  deriving DecidableEq, Repr

/-- The store before any seeding. -/
def emptyDB : DB := { jobs := [], candidates := [], assessments := [] }

/-- `MockAPI.seedData` (source lines 46–115): counts the jobs collection and
returns unchanged when it is non-empty; otherwise adds the 25 jobs, 1000
candidates and 3 assessments (IndexedDB `add` appends fresh keys). -/
def seedData (o : SeedOracle) (db : DB) : DB :=
  if db.jobs.length > 0 then db
  else
    { jobs := db.jobs ++ seedJobs o
      candidates := db.candidates ++ seedCandidates o
      assessments := db.assessments ++ seedAssessments }

/-- Search predicate of the jobs filter, as a standalone predicate: with a
present non-empty search term, the lowered term must occur in the lowered
title; otherwise every job passes. -/
def searchOkJob (search : Option String) (j : Job) : Bool :=
  match search with
  | some s => if s = "" then true else strIncludes (jsToLower j.title) (jsToLower s)
  | none => true

/-- Status predicate of the jobs filter: exact match when present. -/
def statusOkJob (status : Option String) (j : Job) : Bool :=
  match status with
  | some st => if st = "" then true else j.status = st
  | none => true

/-- Search predicate of the candidates filter: lowered term occurs in the
lowered name or the lowered email. -/
def searchOkCand (search : Option String) (c : Candidate) : Bool :=
  match search with
  | some s => if s = "" then true else
      strIncludes (jsToLower c.name) (jsToLower s) ||
        strIncludes (jsToLower c.email) (jsToLower s)
  | none => true

/-- Stage predicate of the candidates filter: exact match when present. -/
def stageOkCand (stage : Option String) (c : Candidate) : Bool :=
  match stage with
  | some st => if st = "" then true else c.stage = st
  | none => true

/-- Concrete sample job `A` for the concrete scenarios below. -/
def jA : Job :=
  { id := "job-1", title := "Alpha", slug := "alpha", status := "active",
    tags := ["React"], order := 1, description := "d", createdAt := 10 }

/-- Concrete sample job `B`. -/
def jB : Job :=
  { id := "job-2", title := "Beta", slug := "beta", status := "active",
    tags := ["AWS"], order := 2, description := "d", createdAt := 20 }

/-- Concrete sample job `C`. -/
def jC : Job :=
  { id := "job-3", title := "Gamma", slug := "gamma", status := "archived",
    tags := [], order := 3, description := "d", createdAt := 30 }

/-- Concrete three-job store `[A, B, C]`. -/
def store3 : List Job := [jA, jB, jC]

/-- The initial filter state of `JobsView`:
`{ search: '', status: '', page: 1 }`. -/
def uiFilters : JobParams :=
  { search := some "", status := some "", page := some 1, pageSize := none }

/-- Concrete sample candidate. -/
def cA : Candidate :=
  { id := "candidate-1", name := "Ada", email := "ada@email.com",
    stage := "applied", jobId := "job-1", appliedAt := 5, notes := [] }

/-- Second concrete sample candidate. -/
def cB : Candidate :=
  { id := "candidate-2", name := "Bob", email := "bob@email.com",
    stage := "screen", jobId := "job-2", appliedAt := 6, notes := [] }

/-- A concrete seeding oracle (any sampled values work; the seeded
cardinalities and shapes do not depend on them). -/
def constOracle : SeedOracle :=
  { jobStatus := fun _ => true, jobTagCount := fun _ => 0,
    jobCreated := fun _ => 0, candStage := fun _ => 0,
    candJob := fun _ => 0, candApplied := fun _ => 0 }

/-- Concrete raw job record with key `job-1`. -/
def rJob1 : Obj :=
  [("id", .vStr "job-1"), ("title", .vStr "T"), ("status", .vStr "active")]

/-- Concrete raw job record with key `job-2`. -/
def rJob2 : Obj :=
  [("id", .vStr "job-2"), ("title", .vStr "U"), ("status", .vStr "active")]

/-- Concrete archive patch `{status: 'archived'}`. -/
def pArchive : Obj := [("status", .vStr "archived")]

/-- Concrete re-keying patch `{id: 'job-2'}`. -/
def pRekey : Obj := [("id", .vStr "job-2")]

/-- Concrete patch carrying its own key, `{id: 'job-1', status: 'archived'}`. -/
def pSelfKeyed : Obj := [("id", .vStr "job-1"), ("status", .vStr "archived")]

/-- Create-job payload with an empty title (and otherwise well-formed
fields), as `createJob` would receive it when called directly. -/
def pEmptyTitle : Obj :=
  [("title", .vStr ""), ("slug", .vStr ""), ("tags", .vStrs []),
   ("status", .vStr "active")]

/-- Form state with a whitespace-only title. -/
def fdBlank : JobFormData :=
  { title := "   ", slug := "", tags := "", status := "active" }

/-- Form state with a valid title. -/
def fdOk : JobFormData :=
  { title := "New Role", slug := "", tags := "a, b", status := "active" }

theorem jsOr_pos (v : Option Nat) (d : Nat) (hd : 0 < d) : 0 < jsOr v d := by
  unfold jsOr
  cases v with
  | none => exact hd
  | some n =>
    by_cases h : n = 0
    · simp [h, hd]
    · simp [h]
      omega

theorem le_ceilDiv_mul (a b : Nat) (hb : 0 < b) : a ≤ ceilDiv a b * b := by
  have h2 : a + b - 1 < ((a + b - 1) / b + 1) * b := by
    rw [← Nat.div_lt_iff_lt_mul hb]
    exact Nat.lt_succ_self _
  have h3 : ((a + b - 1) / b + 1) * b = (a + b - 1) / b * b + b := by ring
  rw [h3] at h2
  unfold ceilDiv
  generalize (a + b - 1) / b * b = m at h2 ⊢
  omega

theorem slices_flatten (l : List α) (ps : Nat) :
    ∀ n : Nat,
      ((List.range n).map (fun i => (l.drop (i * ps)).take ps)).flatten =
        l.take (n * ps)
  | 0 => by simp
  | n + 1 => by
    rw [List.range_succ, List.map_append, List.flatten_append,
      slices_flatten l ps n]
    simp [Nat.succ_mul, List.take_add]

theorem slices_flatten_full (l : List α) (ps : Nat) (hps : 0 < ps) :
    ((List.range (ceilDiv l.length ps)).map
      (fun i => (l.drop (i * ps)).take ps)).flatten = l := by
  rw [slices_flatten]
  exact List.take_of_length_le (le_ceilDiv_mul _ _ hps)

theorem jsSlice_beyond (l : List α) (pg ps : Nat) (hps : 0 < ps)
    (h : ceilDiv l.length ps < pg) :
    jsSlice l ((pg - 1) * ps) ((pg - 1) * ps + ps) = [] := by
  have h1 : l.length ≤ ceilDiv l.length ps * ps := le_ceilDiv_mul _ _ hps
  have h2 : ceilDiv l.length ps * ps ≤ (pg - 1) * ps :=
    Nat.mul_le_mul_right _ (by omega)
  unfold jsSlice
  rw [List.drop_eq_nil_of_le (by omega)]
  simp

theorem mem_jobsSearchStep (search : Option String) (jobs : List Job)
    (j : Job) :
    j ∈ jobsSearchStep search jobs ↔
      j ∈ jobs ∧ searchOkJob search j = true := by
  cases search with
  | none => simp [jobsSearchStep, searchOkJob]
  | some s =>
    by_cases h : s = "" <;>
      simp [jobsSearchStep, searchOkJob, h, List.mem_filter]

theorem mem_jobsStatusStep (status : Option String) (jobs : List Job)
    (j : Job) :
    j ∈ jobsStatusStep status jobs ↔
      j ∈ jobs ∧ statusOkJob status j = true := by
  cases status with
  | none => simp [jobsStatusStep, statusOkJob]
  | some st =>
    by_cases h : st = "" <;>
      simp [jobsStatusStep, statusOkJob, h, List.mem_filter]

theorem jobsSearchStep_sublist (search : Option String) (jobs : List Job) :
    (jobsSearchStep search jobs).Sublist jobs := by
  cases search with
  | none => exact List.Sublist.refl _
  | some s =>
    unfold jobsSearchStep
    by_cases h : s = ""
    · simp [h]
    · simp only [h, if_false]
      exact List.filter_sublist _

theorem jobsStatusStep_sublist (status : Option String) (jobs : List Job) :
    (jobsStatusStep status jobs).Sublist jobs := by
  cases status with
  | none => exact List.Sublist.refl _
  | some st =>
    unfold jobsStatusStep
    by_cases h : st = ""
    · simp [h]
    · simp only [h, if_false]
      exact List.filter_sublist _

theorem jobsFiltered_sublist (jobs : List Job) (p : JobParams) :
    (jobsFiltered jobs p).Sublist jobs :=
  (jobsStatusStep_sublist _ _).trans (jobsSearchStep_sublist _ _)

theorem mem_jobsFiltered (jobs : List Job) (p : JobParams) (j : Job) :
    j ∈ jobsFiltered jobs p ↔
      j ∈ jobs ∧ searchOkJob p.search j = true ∧
        statusOkJob p.status j = true := by
  unfold jobsFiltered
  rw [mem_jobsStatusStep, mem_jobsSearchStep]
  tauto

theorem mem_candidatesSearchStep (search : Option String)
    (cands : List Candidate) (c : Candidate) :
    c ∈ candidatesSearchStep search cands ↔
      c ∈ cands ∧ searchOkCand search c = true := by
  cases search with
  | none => simp [candidatesSearchStep, searchOkCand]
  | some s =>
    by_cases h : s = "" <;>
      simp [candidatesSearchStep, searchOkCand, h, List.mem_filter]

theorem mem_candidatesStageStep (stage : Option String)
    (cands : List Candidate) (c : Candidate) :
    c ∈ candidatesStageStep stage cands ↔
      c ∈ cands ∧ stageOkCand stage c = true := by
  cases stage with
  | none => simp [candidatesStageStep, stageOkCand]
  | some st =>
    by_cases h : st = "" <;>
      simp [candidatesStageStep, stageOkCand, h, List.mem_filter]

theorem candidatesSearchStep_sublist (search : Option String)
    (cands : List Candidate) :
    (candidatesSearchStep search cands).Sublist cands := by
  cases search with
  | none => exact List.Sublist.refl _
  | some s =>
    unfold candidatesSearchStep
    by_cases h : s = ""
    · simp [h]
    · simp only [h, if_false]
      exact List.filter_sublist _

theorem candidatesStageStep_sublist (stage : Option String)
    (cands : List Candidate) :
    (candidatesStageStep stage cands).Sublist cands := by
  cases stage with
  | none => exact List.Sublist.refl _
  | some st =>
    unfold candidatesStageStep
    by_cases h : st = ""
    · simp [h]
    · simp only [h, if_false]
      exact List.filter_sublist _

theorem candidatesFiltered_sublist (cands : List Candidate)
    (p : CandidateParams) :
    (candidatesFiltered cands p).Sublist cands :=
  (candidatesStageStep_sublist _ _).trans (candidatesSearchStep_sublist _ _)

theorem mem_candidatesFiltered (cands : List Candidate) (p : CandidateParams)
    (c : Candidate) :
    c ∈ candidatesFiltered cands p ↔
      c ∈ cands ∧ searchOkCand p.search c = true ∧
        stageOkCand p.stage c = true := by
  unfold candidatesFiltered
  rw [mem_candidatesStageStep, mem_candidatesSearchStep]
  tauto

theorem getJobsCore_page_data (snap : List Job) (p : JobParams) (i : Nat) :
    (getJobsCore snap { p with page := some (i + 1) }).data =
      ((jobsFiltered snap p).drop (i * jsOr p.pageSize 10)).take
        (jsOr p.pageSize 10) := by
  simp [getJobsCore, jsSlice, jsOr, jobsFiltered]

theorem getCandidatesCore_page_data (snap : List Candidate)
    (p : CandidateParams) (i : Nat) :
    (getCandidatesCore snap { p with page := some (i + 1) }).data =
      ((candidatesFiltered snap p).drop (i * jsOr p.pageSize 50)).take
        (jsOr p.pageSize 50) := by
  simp [getCandidatesCore, jsSlice, jsOr, candidatesFiltered]

/-- C1: for every stored snapshot and parameter object, `getJobs`
(resp. `getCandidates`) filters the snapshot by case-insensitive substring
search on the title (resp. name or email) and by exact status (resp. stage)
match when those parameters are present, keeps the snapshot's creation order
(the filtered list is a sublist of the snapshot), and returns `data` equal
to the slice `[(page-1)*pageSize, page*pageSize)` of the filtered list, with
`pagination.total` the post-filter count, `totalPages = ceil(total/pageSize)`,
`page` defaulting to 1 and `pageSize` defaulting to 10 for jobs and 50 for
candidates; a page beyond `totalPages` yields an empty `data` slice rather
than an error, and the slices for pages `1..totalPages` concatenate to the
full filtered list and (for duplicate-free snapshots) are pairwise
disjoint. -/
theorem c1_query_filter_pagination (snap : List Job) (p : JobParams)
    (csnap : List Candidate) (cp : CandidateParams) :
    (getJobs false snap p = .ok (getJobsCore snap p) ∧
      (getJobsCore snap p).data =
        jsSlice (jobsFiltered snap p)
          ((jsOr p.page 1 - 1) * jsOr p.pageSize 10)
          ((jsOr p.page 1 - 1) * jsOr p.pageSize 10 + jsOr p.pageSize 10) ∧
      (getJobsCore snap p).pagination.total = (jobsFiltered snap p).length ∧
      (getJobsCore snap p).pagination.totalPages =
        ceilDiv (jobsFiltered snap p).length (jsOr p.pageSize 10) ∧
      (p.page = none → (getJobsCore snap p).pagination.page = 1) ∧
      (p.pageSize = none → (getJobsCore snap p).pagination.pageSize = 10) ∧
      (∀ j : Job, j ∈ jobsFiltered snap p ↔
        j ∈ snap ∧ searchOkJob p.search j = true ∧
          statusOkJob p.status j = true) ∧
      (jobsFiltered snap p).Sublist snap ∧
      (ceilDiv (jobsFiltered snap p).length (jsOr p.pageSize 10) <
          jsOr p.page 1 →
        (getJobsCore snap p).data = []) ∧
      ((List.range
          (ceilDiv (jobsFiltered snap p).length (jsOr p.pageSize 10))).map
        (fun i => (getJobsCore snap { p with page := some (i + 1) }).data)
        ).flatten = jobsFiltered snap p ∧
      (snap.Nodup →
        List.Pairwise List.Disjoint
          ((List.range
              (ceilDiv (jobsFiltered snap p).length
                (jsOr p.pageSize 10))).map
            (fun i =>
              (getJobsCore snap { p with page := some (i + 1) }).data)))) ∧
    (getCandidates false csnap cp = .ok (getCandidatesCore csnap cp) ∧
      (getCandidatesCore csnap cp).data =
        jsSlice (candidatesFiltered csnap cp)
          ((jsOr cp.page 1 - 1) * jsOr cp.pageSize 50)
          ((jsOr cp.page 1 - 1) * jsOr cp.pageSize 50 +
            jsOr cp.pageSize 50) ∧
      (getCandidatesCore csnap cp).pagination.total =
        (candidatesFiltered csnap cp).length ∧
      (getCandidatesCore csnap cp).pagination.totalPages =
        ceilDiv (candidatesFiltered csnap cp).length (jsOr cp.pageSize 50) ∧
      (cp.page = none → (getCandidatesCore csnap cp).pagination.page = 1) ∧
      (cp.pageSize = none →
        (getCandidatesCore csnap cp).pagination.pageSize = 50) ∧
      (∀ c : Candidate, c ∈ candidatesFiltered csnap cp ↔
        c ∈ csnap ∧ searchOkCand cp.search c = true ∧
          stageOkCand cp.stage c = true) ∧
      (candidatesFiltered csnap cp).Sublist csnap ∧
      (ceilDiv (candidatesFiltered csnap cp).length (jsOr cp.pageSize 50) <
          jsOr cp.page 1 →
        (getCandidatesCore csnap cp).data = []) ∧
      ((List.range
          (ceilDiv (candidatesFiltered csnap cp).length
            (jsOr cp.pageSize 50))).map
        (fun i =>
          (getCandidatesCore csnap { cp with page := some (i + 1) }).data)
        ).flatten = candidatesFiltered csnap cp ∧
      (csnap.Nodup →
        List.Pairwise List.Disjoint
          ((List.range
              (ceilDiv (candidatesFiltered csnap cp).length
                (jsOr cp.pageSize 50))).map
            (fun i =>
              (getCandidatesCore csnap
                { cp with page := some (i + 1) }).data)))) := by
  have hpsJ : 0 < jsOr p.pageSize 10 := jsOr_pos _ _ (by omega)
  have hpsC : 0 < jsOr cp.pageSize 50 := jsOr_pos _ _ (by omega)
  have hmapJ :
      (List.range
          (ceilDiv (jobsFiltered snap p).length (jsOr p.pageSize 10))).map
        (fun i => (getJobsCore snap { p with page := some (i + 1) }).data) =
      (List.range
          (ceilDiv (jobsFiltered snap p).length (jsOr p.pageSize 10))).map
        (fun i =>
          ((jobsFiltered snap p).drop (i * jsOr p.pageSize 10)).take
            (jsOr p.pageSize 10)) :=
    List.map_congr_left fun i _ => getJobsCore_page_data snap p i
  have hflatJ :
      ((List.range
          (ceilDiv (jobsFiltered snap p).length (jsOr p.pageSize 10))).map
        (fun i => (getJobsCore snap { p with page := some (i + 1) }).data)
        ).flatten = jobsFiltered snap p := by
    rw [hmapJ]
    exact slices_flatten_full _ _ hpsJ
  have hmapC :
      (List.range
          (ceilDiv (candidatesFiltered csnap cp).length
            (jsOr cp.pageSize 50))).map
        (fun i =>
          (getCandidatesCore csnap { cp with page := some (i + 1) }).data) =
      (List.range
          (ceilDiv (candidatesFiltered csnap cp).length
            (jsOr cp.pageSize 50))).map
        (fun i =>
          ((candidatesFiltered csnap cp).drop
            (i * jsOr cp.pageSize 50)).take (jsOr cp.pageSize 50)) :=
    List.map_congr_left fun i _ => getCandidatesCore_page_data csnap cp i
  have hflatC :
      ((List.range
          (ceilDiv (candidatesFiltered csnap cp).length
            (jsOr cp.pageSize 50))).map
        (fun i =>
          (getCandidatesCore csnap { cp with page := some (i + 1) }).data)
        ).flatten = candidatesFiltered csnap cp := by
    rw [hmapC]
    exact slices_flatten_full _ _ hpsC
  refine ⟨⟨rfl, rfl, rfl, rfl, ?_, ?_, mem_jobsFiltered snap p,
      jobsFiltered_sublist snap p, ?_, hflatJ, ?_⟩,
    ⟨rfl, rfl, rfl, rfl, ?_, ?_, mem_candidatesFiltered csnap cp,
      candidatesFiltered_sublist csnap cp, ?_, hflatC, ?_⟩⟩
  · intro h
    simp [getJobsCore, jsOr, h]
  · intro h
    simp [getJobsCore, jsOr, h]
  · intro h
    exact jsSlice_beyond _ _ _ hpsJ h
  · intro hnd
    have hfnd : (jobsFiltered snap p).Nodup :=
      (jobsFiltered_sublist snap p).nodup hnd
    rw [← hflatJ] at hfnd
    exact (List.nodup_flatten.mp hfnd).2
  · intro h
    simp [getCandidatesCore, jsOr, h]
  · intro h
    simp [getCandidatesCore, jsOr, h]
  · intro h
    exact jsSlice_beyond _ _ _ hpsC h
  · intro hnd
    have hfnd : (candidatesFiltered csnap cp).Nodup :=
      (candidatesFiltered_sublist csnap cp).nodup hnd
    rw [← hflatC] at hfnd
    exact (List.nodup_flatten.mp hfnd).2

/-- Witness for C1 at a concrete snapshot and parameter object: requesting
page 7 of the three-job store yields an empty slice, and the page slices of
the default query are pairwise disjoint. -/
theorem c1_query_filter_pagination_witness :
    (getJobsCore store3 { page := some 7 }).data = [] ∧
    List.Pairwise List.Disjoint
      ((List.range
          (ceilDiv (jobsFiltered store3 uiFilters).length
            (jsOr uiFilters.pageSize 10))).map
        (fun i =>
          (getJobsCore store3 { uiFilters with page := some (i + 1) }).data)) ∧
    (getCandidatesCore [cA, cB] { search := some "ada" }).data = [cA] := by
  refine ⟨?_, ?_, by decide⟩
  · exact
      ((c1_query_filter_pagination store3 { page := some 7 } [] {}).1.2.2.2.2.2.2.2.2.1)
        (by decide)
  · exact
      ((c1_query_filter_pagination store3 uiFilters [] {}).1.2.2.2.2.2.2.2.2.2.2)
        (by decide)

theorem lookupObj_nil (k : String) : lookupObj [] k = none := rfl

theorem lookupObj_cons (kv : String × JsVal) (o : Obj) (k : String) :
    lookupObj (kv :: o) k =
      if kv.1 = k then some kv.2 else lookupObj o k := by
  unfold lookupObj
  by_cases hk : kv.1 = k <;> simp [List.find?_cons, hk]

theorem mergeObj_nil (b : Obj) : mergeObj [] b = b := by
  unfold mergeObj
  rw [List.map_nil, List.nil_append]
  rw [List.filter_eq_self.mpr]
  intro kv _
  rfl

theorem lookupObj_append (x y : Obj) (k : String) :
    lookupObj (x ++ y) k =
      match lookupObj x k with
      | some v => some v
      | none => lookupObj y k := by
  unfold lookupObj
  rw [List.find?_append]
  cases x.find? (fun kv => kv.1 = k) <;> simp

theorem lookupObj_mergeMap (a b : Obj) (k : String) :
    lookupObj
      (a.map fun kv =>
        match lookupObj b kv.1 with
        | some v => (kv.1, v)
        | none => kv) k =
      match lookupObj a k with
      | some v =>
          match lookupObj b k with
          | some w => some w
          | none => some v
      | none => none := by
  induction a with
  | nil => rfl
  | cons h t ih =>
    by_cases hk : h.1 = k
    · cases hb : lookupObj b h.1 <;>
        rw [List.map_cons] <;>
        simp [lookupObj_cons, hb, hk, hk ▸ hb]
    · cases hb : lookupObj b h.1 <;>
        rw [List.map_cons] <;>
        simp [lookupObj_cons, hb, hk, ih]

theorem lookupObj_mergeFilter (a b : Obj) (k : String) :
    lookupObj (b.filter fun kv => (lookupObj a kv.1).isNone) k =
      match lookupObj a k with
      | some _ => none
      | none => lookupObj b k := by
  induction b with
  | nil => cases lookupObj a k <;> rfl
  | cons h t ih =>
    by_cases hk : h.1 = k
    · cases ha : lookupObj a k
      · rw [List.filter_cons]
        simp [hk ▸ ha, lookupObj_cons, hk, ih, ha]
      · rw [List.filter_cons]
        simp [hk ▸ ha, ih, ha]
    · cases hfh : (lookupObj a h.1).isNone <;>
        simp [List.filter_cons, hfh, lookupObj_cons, hk, ih]

theorem lookupObj_mergeObj (a b : Obj) (k : String) :
    lookupObj (mergeObj a b) k =
      match lookupObj b k with
      | some v => some v
      | none => lookupObj a k := by
  unfold mergeObj
  rw [lookupObj_append, lookupObj_mergeMap, lookupObj_mergeFilter]
  cases ha : lookupObj a k <;> cases hb : lookupObj b k <;> simp

theorem putByKey_eq_set (key : JsVal) (m : Obj) (store : List Obj)
    (hex : ∃ r ∈ store, lookupObj r "id" = some key) :
    putByKey key m store =
      store.set (store.findIdx fun r => lookupObj r "id" = some key) m := by
  induction store with
  | nil => simp at hex
  | cons h t ih =>
    by_cases hh : lookupObj h "id" = some key
    · simp [putByKey, List.findIdx_cons, hh]
    · have hex' : ∃ r ∈ t, lookupObj r "id" = some key := by
        obtain ⟨r, hr, hkey⟩ := hex
        cases hr with
        | head => exact absurd hkey hh
        | tail _ hmem => exact ⟨r, hmem, hkey⟩
      simp [putByKey, List.findIdx_cons, hh, ih hex']

theorem getObj_putByKey_ne (store : List Obj) (k k' : String) (m : Obj)
    (hm : lookupObj m "id" = some (.vStr k')) (hne : k ≠ k') :
    getObj (putByKey (.vStr k') m store) k = getObj store k := by
  have hne' : (JsVal.vStr k' = JsVal.vStr k) = False := by
    simp
    intro h
    exact hne h.symm
  induction store with
  | nil =>
    simp [putByKey, getObj, List.find?_cons, hm, hne']
  | cons r rs ih =>
    by_cases hr : lookupObj r "id" = some (JsVal.vStr k')
    · simp [putByKey, hr, getObj, List.find?_cons, hm, hne']
    · simp only [putByKey, hr, if_false]
      by_cases hrk : lookupObj r "id" = some (JsVal.vStr k)
      · simp [getObj, List.find?_cons, hrk]
      · simp only [getObj, List.find?_cons] at ih ⊢
        simp [hrk, ih]

theorem getObj_putByKey_self (store : List Obj) (k' : String) (m : Obj)
    (hm : lookupObj m "id" = some (.vStr k')) :
    getObj (putByKey (.vStr k') m store) k' = some m := by
  induction store with
  | nil => simp [putByKey, getObj, List.find?_cons, hm]
  | cons r rs ih =>
    by_cases hr : lookupObj r "id" = some (JsVal.vStr k')
    · simp [putByKey, hr, getObj, List.find?_cons, hm]
    · simp only [putByKey, hr, if_false]
      simp only [getObj, List.find?_cons] at ih ⊢
      simp [hr, ih]

theorem getObj_some_lookup (store : List Obj) (k : String) (r : Obj)
    (h : getObj store k = some r) :
    lookupObj r "id" = some (.vStr k) := by
  have := List.find?_some h
  simpa using this

theorem updateRecord_eq (store : List Obj) (id : String) (p : Obj) :
    updateRecord false store id p =
      (putObj store (mergeObj ((getObj store id).getD []) p)).map
        (fun s => (mergeObj ((getObj store id).getD []) p, s)) := rfl

/-- C3 counterexample: updating an absent key does not fail with `NotFound`.
With the patch `{id: 'job-1', status: 'archived'}` against an empty jobs
collection, `updateJob` succeeds, returns the patch merged over an empty
record, and writes it into the store. -/
theorem c3_update_absent_counterexample :
    updateJob false [] "job-1" pSelfKeyed =
      Except.ok (pSelfKeyed, [pSelfKeyed]) := rfl

/-- C3 amended: when the key is absent the update does not raise `NotFound`;
the record resolves to `undefined` and the patch is merged over an empty
object.  If the patch carries no `id`, the store's `put` raises a key error
(`DataError`) and nothing is written; if it carries an `id`, the merged
record is upserted under that id and returned — in neither case does a
`NotFound` failure occur. -/
theorem c3_update_absent_amended (store : List Obj) (k : String) (p : Obj)
    (habs : getObj store k = none) :
    (lookupObj p "id" = none →
      updateJob false store k p = .error .dataError ∧
      updateCandidate false store k p = .error .dataError) ∧
    (∀ v, lookupObj p "id" = some v →
      updateJob false store k p =
        .ok (mergeObj [] p, putByKey v (mergeObj [] p) store) ∧
      updateCandidate false store k p =
        .ok (mergeObj [] p, putByKey v (mergeObj [] p) store)) := by
  have hrec : (getObj store k).getD [] = [] := by rw [habs]; rfl
  constructor
  · intro hid
    have hmid : lookupObj (mergeObj [] p) "id" = none := by
      rw [mergeObj_nil]; exact hid
    constructor <;>
      simp [updateJob, updateCandidate, updateRecord, delay, hrec, putObj,
        hmid, Except.bind, Except.map]
  · intro v hid
    have hmid : lookupObj (mergeObj [] p) "id" = some v := by
      rw [mergeObj_nil]; exact hid
    constructor <;>
      simp [updateJob, updateCandidate, updateRecord, delay, hrec, putObj,
        hmid, Except.bind, Except.map]

/-- Witness for C3 amended at concrete inputs: on the empty store, an
id-less patch makes the update fail with `DataError`, and an id-carrying
patch makes it succeed and write. -/
theorem c3_update_absent_amended_witness :
    updateJob false [] "job-1" pArchive = .error .dataError ∧
    updateJob false [] "job-1" pRekey =
      .ok (mergeObj [] pRekey,
        putByKey (.vStr "job-2") (mergeObj [] pRekey) []) := by
  refine ⟨((c3_update_absent_amended [] "job-1" pArchive (by decide)).1
      (by decide)).1, ?_⟩
  exact ((c3_update_absent_amended [] "job-1" pRekey (by decide)).2
    (.vStr "job-2") (by decide)).1

/-- C5 counterexample: a patch that carries a different `id` makes the
update overwrite another record.  Updating `job-1` with `{id: 'job-2'}` in a
two-record store replaces the record stored under `job-2` with the merged
record, so a record other than the target changes. -/
theorem c5_update_frame_counterexample :
    updateJob false [rJob1, rJob2] "job-1" pRekey =
      Except.ok (mergeObj rJob1 pRekey, [rJob1, mergeObj rJob1 pRekey]) ∧
    mergeObj rJob1 pRekey ≠ rJob2 :=
  ⟨rfl, by decide⟩

/-- C5 amended: for an existing record `r` at key `k` and a patch that does
not re-key the record (no `id` field, or `id` equal to `k`), the update
returns and persists the shallow merge of the patch over `r`: patch fields
take the patch's value, fields absent from the patch keep `r`'s value, the
merged record replaces `r` in place (the first record with key `k`), and
every other position of the collection is unchanged. -/
theorem c5_update_shallow_merge_amended (store : List Obj) (k : String)
    (r p : Obj) (hfind : getObj store k = some r)
    (hid : lookupObj p "id" = none ∨ lookupObj p "id" = some (.vStr k)) :
    updateJob false store k p =
      .ok (mergeObj r p, putByKey (.vStr k) (mergeObj r p) store) ∧
    updateCandidate false store k p =
      .ok (mergeObj r p, putByKey (.vStr k) (mergeObj r p) store) ∧
    (∀ f v, lookupObj p f = some v → lookupObj (mergeObj r p) f = some v) ∧
    (∀ f, lookupObj p f = none →
      lookupObj (mergeObj r p) f = lookupObj r f) ∧
    putByKey (.vStr k) (mergeObj r p) store =
      store.set
        (store.findIdx fun rr => lookupObj rr "id" = some (.vStr k))
        (mergeObj r p) ∧
    (∀ j : Nat,
      j ≠ store.findIdx (fun rr => lookupObj rr "id" = some (.vStr k)) →
      (putByKey (.vStr k) (mergeObj r p) store)[j]? = store[j]?) := by
  have hrid : lookupObj r "id" = some (.vStr k) :=
    getObj_some_lookup store k r hfind
  have hrec : (getObj store k).getD [] = r := by rw [hfind]; rfl
  have hmid : lookupObj (mergeObj r p) "id" = some (.vStr k) := by
    rw [lookupObj_mergeObj]
    rcases hid with hid | hid
    · rw [hid]
      simp [hrid]
    · rw [hid]
  have hex : ∃ rr ∈ store, lookupObj rr "id" = some (JsVal.vStr k) := by
    have := List.mem_of_find?_eq_some hfind
    exact ⟨r, this, hrid⟩
  have hset := putByKey_eq_set (JsVal.vStr k) (mergeObj r p) store hex
  refine ⟨?_, ?_, ?_, ?_, hset, ?_⟩
  · simp [updateJob, updateRecord, delay, hrec, putObj, hmid, Except.bind, Except.map]
  · simp [updateCandidate, updateRecord, delay, hrec, putObj, hmid,
      Except.bind, Except.map]
  · intro f v hf
    rw [lookupObj_mergeObj, hf]
  · intro f hf
    rw [lookupObj_mergeObj, hf]
  · intro j hj
    rw [hset]
    exact List.getElem?_set_ne (Ne.symm hj)

/-- Witness for C5 amended: archiving `job-1` in a two-record store replaces
only the first record, sets `status` to `archived`, and keeps `title`. -/
theorem c5_update_shallow_merge_amended_witness :
    updateJob false [rJob1, rJob2] "job-1" pArchive =
      .ok (mergeObj rJob1 pArchive,
        putByKey (.vStr "job-1") (mergeObj rJob1 pArchive) [rJob1, rJob2]) ∧
    lookupObj (mergeObj rJob1 pArchive) "status" =
      some (.vStr "archived") ∧
    lookupObj (mergeObj rJob1 pArchive) "title" = some (.vStr "T") := by
  have h := c5_update_shallow_merge_amended [rJob1, rJob2] "job-1" rJob1
    pArchive (by decide) (Or.inl (by decide))
  refine ⟨h.1, h.2.2.1 "status" _ (by decide), ?_⟩
  rw [h.2.2.2.1 "title" (by decide)]
  decide

/-- C10: an update whose patch carries a different id `k'` stores the merged
record under `k'` and returns it, while the original record at `k` remains
in the collection unchanged — afterwards the collection contains both. -/
theorem c10_update_rekey_duplicates (store : List Obj) (k k' : String)
    (r p : Obj) (hfind : getObj store k = some r)
    (hp : lookupObj p "id" = some (.vStr k')) (hne : k ≠ k') :
    updateJob false store k p =
      .ok (mergeObj r p, putByKey (.vStr k') (mergeObj r p) store) ∧
    updateCandidate false store k p =
      .ok (mergeObj r p, putByKey (.vStr k') (mergeObj r p) store) ∧
    getObj (putByKey (.vStr k') (mergeObj r p) store) k = getObj store k ∧
    getObj (putByKey (.vStr k') (mergeObj r p) store) k' =
      some (mergeObj r p) := by
  have hrec : (getObj store k).getD [] = r := by rw [hfind]; rfl
  have hmid : lookupObj (mergeObj r p) "id" = some (.vStr k') := by
    rw [lookupObj_mergeObj, hp]
  refine ⟨?_, ?_, ?_, ?_⟩
  · simp [updateJob, updateRecord, delay, hrec, putObj, hmid, Except.bind, Except.map]
  · simp [updateCandidate, updateRecord, delay, hrec, putObj, hmid,
      Except.bind, Except.map]
  · exact getObj_putByKey_ne store k k' (mergeObj r p) hmid hne
  · exact getObj_putByKey_self store k' (mergeObj r p) hmid

/-- Witness for C10: after updating `job-1` with `{id: 'job-2'}`, the store
still returns the untouched original under `job-1` and the merged record
under `job-2`. -/
theorem c10_update_rekey_duplicates_witness :
    updateJob false [rJob1, rJob2] "job-1" pRekey =
      .ok (mergeObj rJob1 pRekey,
        putByKey (.vStr "job-2") (mergeObj rJob1 pRekey) [rJob1, rJob2]) ∧
    getObj (putByKey (.vStr "job-2") (mergeObj rJob1 pRekey) [rJob1, rJob2])
      "job-1" = some rJob1 ∧
    getObj (putByKey (.vStr "job-2") (mergeObj rJob1 pRekey) [rJob1, rJob2])
      "job-2" = some (mergeObj rJob1 pRekey) := by
  have h := c10_update_rekey_duplicates [rJob1, rJob2] "job-1" "job-2" rJob1
    pRekey (by decide) (by decide) (by decide)
  refine ⟨h.1, ?_, h.2.2.2⟩
  rw [h.2.2.1]
  decide

/-- C2 counterexample: the rollback is a re-query, not a restore of a
captured snapshot, and the re-query is itself failure-injected.  Starting
from `[A, B, C]`, moving `B` before `A` and failing the mutation while the
rollback reload also draws the injected failure leaves the observable list
at `[B, A, C]`, not the original `[A, B, C]`. -/
theorem c2_rollback_counterexample :
    (handleDrop true true store3 uiFilters
        { jobs := store3, draggedJob := some jB } jA).1.jobs =
      [jB, jA, jC] ∧
    [jB, jA, jC] ≠ store3 := by decide

/-- C2 amended: on mutation failure the rollback re-queries the store
rather than restoring a captured snapshot; since the failed reorder wrote
nothing, a successful re-query returns exactly the pre-transform list, the
drag state clears (back to `Stable`), and the failure is surfaced with an
alert.  (When the re-query itself draws the injected failure, the
speculative order stays visible, as the counterexample shows.) -/
theorem c2_rollback_amended (store : List Job) (filters : JobParams)
    (st : JobsViewState) (dragged target : Job)
    (hq : st.jobs = (getJobsCore store filters).data)
    (hd : st.draggedJob = some dragged)
    (hne : dragged.id ≠ target.id) :
    (handleDrop true false store filters st target).1.jobs = st.jobs ∧
    (handleDrop true false store filters st target).1.draggedJob = none ∧
    (handleDrop true false store filters st target).2 = true := by
  refine ⟨?_, ?_, ?_⟩ <;>
    simp [handleDrop, hd, hne, settleDrop, loadJobsView, hq]

/-- Witness for C2 amended: moving `B` before `A` on the concrete store,
failing the mutation, and reloading successfully restores `[A, B, C]`. -/
theorem c2_rollback_amended_witness :
    (handleDrop true false store3 uiFilters
        { jobs := store3, draggedJob := some jB } jA).1.jobs = store3 ∧
    (handleDrop true false store3 uiFilters
        { jobs := store3, draggedJob := some jB } jA).1.draggedJob = none ∧
    (handleDrop true false store3 uiFilters
        { jobs := store3, draggedJob := some jB } jA).2 = true := by
  have h := c2_rollback_amended store3 uiFilters
    { jobs := store3, draggedJob := some jB } jB jA (by decide) rfl
    (by decide)
  exact h

/-- C7 counterexample: no sequence numbers exist and settles are applied
unconditionally.  Two rapid drops on `[A, B, C]` — first move `B` before
`A`, then move `C` before `B` — where the second settles successfully and
the first then settles with a failure: the first's rollback reload resets
the list to the store's order `[A, B, C]`, overriding the second drop's
outcome `[C, B, A]`. -/
theorem c7_stale_settle_counterexample :
    ((settleDrop true false store3 uiFilters
        ((settleDrop false false store3 uiFilters
            (applyOptimistic
              { applyOptimistic { jobs := store3, draggedJob := some jB } jA
                  with draggedJob := some jC } jB)).1)).1).jobs =
      [jA, jB, jC] ∧
    (applyOptimistic
        { applyOptimistic { jobs := store3, draggedJob := some jB } jA with
            draggedJob := some jC } jB).jobs = [jC, jB, jA] ∧
    ([jA, jB, jC] : List Job) ≠ [jC, jB, jA] := by decide

/-- C7 amended: `handleDrop` allocates no sequence numbers and applies
settles unconditionally.  For any two begins issued rapidly on the same
list where the first resolves with a failure after the second settled, the
first's rollback reload resets the observable list to the store's query
result, overriding the second begin's outcome whenever that outcome differs
from it. -/
theorem c7_stale_settle_amended (store : List Job) (filters : JobParams)
    (q : List Job) (d1 d2 t1 t2 : Job)
    (hq : q = (getJobsCore store filters).data) :
    ((settleDrop true false store filters
        ((settleDrop false false store filters
            (applyOptimistic
              { applyOptimistic { jobs := q, draggedJob := some d1 } t1 with
                  draggedJob := some d2 } t2)).1)).1).jobs = q ∧
    ((applyOptimistic
        { applyOptimistic { jobs := q, draggedJob := some d1 } t1 with
            draggedJob := some d2 } t2).jobs ≠ q →
      ((settleDrop true false store filters
          ((settleDrop false false store filters
              (applyOptimistic
                { applyOptimistic { jobs := q, draggedJob := some d1 } t1
                    with draggedJob := some d2 } t2)).1)).1).jobs ≠
        (applyOptimistic
          { applyOptimistic { jobs := q, draggedJob := some d1 } t1 with
              draggedJob := some d2 } t2).jobs) := by
  constructor
  · simp [settleDrop, loadJobsView, hq]
  · intro hne
    simp only [settleDrop, loadJobsView, if_true, if_false, Bool.false_eq_true]
    simp [← hq]
    exact fun h => hne h.symm

/-- Witness for C7 amended at the concrete two-drop scenario. -/
theorem c7_stale_settle_amended_witness :
    ((settleDrop true false store3 uiFilters
        ((settleDrop false false store3 uiFilters
            (applyOptimistic
              { applyOptimistic { jobs := store3, draggedJob := some jB } jA
                  with draggedJob := some jC } jB)).1)).1).jobs = store3 :=
  (c7_stale_settle_amended store3 uiFilters store3 jB jC jA jB
    (by decide)).1

/-- C8: a successful reorder commit persists nothing.  `handleDrop` neither
receives nor returns the store — the simulated reorder call writes no
`order` fields — so after a successful drop of `B` before `A` the view
shows `[B, A, C]` while the store-backed query still returns `[A, B, C]`,
and the next reload resets the view to the unpersisted order. -/
theorem c8_reorder_commit_not_persisted :
    (handleDrop false false store3 uiFilters
        { jobs := store3, draggedJob := some jB } jA).1.jobs =
      [jB, jA, jC] ∧
    (handleDrop false false store3 uiFilters
        { jobs := store3, draggedJob := some jB } jA).2 = false ∧
    (getJobsCore store3 uiFilters).data = [jA, jB, jC] ∧
    (loadJobsView false store3 uiFilters
        (handleDrop false false store3 uiFilters
          { jobs := store3, draggedJob := some jB } jA).1).jobs =
      [jA, jB, jC] := by decide

/-- C9 counterexample: `createJob` itself performs no validation.  Called
directly with a payload whose `title` is the empty string, it succeeds —
no `ValidationError` — and the record is added to the collection. -/
theorem c9_create_validation_counterexample :
    createJob false [] pEmptyTitle 5 =
      Except.ok (mkNewJob pEmptyTitle 5, [mkNewJob pEmptyTitle 5]) ∧
    lookupObj (mkNewJob pEmptyTitle 5) "title" = some (.vStr "") :=
  ⟨rfl, rfl⟩

/-- C9 amended: the required-title check lives in
`CreateJobModal.handleSubmit`, not in `createJob`.  A blank
(whitespace-only) title is rejected before any API call, so no record
reaches storage via the form; a non-blank title submits the built payload
to `createJob`; and `createJob` itself stores any payload — an empty title
included — whenever the generated id is fresh. -/
theorem c9_create_validation_amended (fail : Bool) (fd : JobFormData)
    (store : List Obj) (now : Nat) (p : Obj)
    (hfresh : store.any
      (fun r => lookupObj r "id" = lookupObj (mkNewJob p now) "id") = false) :
    (jsTrim fd.title = "" → handleSubmit fail fd store now = none) ∧
    (jsTrim fd.title ≠ "" →
      handleSubmit fail fd store now =
        some (createJob fail store (buildPayload fd) now)) ∧
    createJob false store p now =
      .ok (mkNewJob p now, store ++ [mkNewJob p now]) := by
  refine ⟨?_, ?_, ?_⟩
  · intro h
    simp [handleSubmit, h]
  · intro h
    simp [handleSubmit, h]
  · simp [createJob, delay, hfresh, Except.bind]

/-- Witness for C9 amended: a whitespace-only title never reaches the API,
a real title does, and a direct `createJob` call with an empty title
succeeds against the empty store. -/
theorem c9_create_validation_amended_witness :
    handleSubmit false fdBlank [] 0 = none ∧
    handleSubmit false fdOk [] 0 =
      some (createJob false [] (buildPayload fdOk) 0) ∧
    createJob false [] pEmptyTitle 7 =
      .ok (mkNewJob pEmptyTitle 7, [mkNewJob pEmptyTitle 7]) := by
  have h1 := c9_create_validation_amended false fdBlank [] 0 pEmptyTitle
    (by decide)
  have h2 := c9_create_validation_amended false fdOk [] 0 pEmptyTitle
    (by decide)
  have h3 := c9_create_validation_amended false fdOk [] 7 pEmptyTitle
    (by decide)
  exact ⟨h1.1 (by decide), h2.2.1 (by decide), h3.2.2⟩

/-- C4: failure injection is not restricted to writes.  `MockAPI.delay` is
awaited by every operation, and its `Math.random() < 0.05` branch throws
`Network error` regardless of whether the operation reads or writes — the
source's own comment (`// 5% error rate on writes`) notwithstanding.  Each
read (`getJobs`, `getCandidates`, `getAssessment`) raises the network
error whenever the failure is sampled, and succeeds otherwise. -/
theorem c4_reads_are_failure_injected :
    getJobs true store3 {} = .error .networkError ∧
    getCandidates true [cA, cB] {} = .error .networkError ∧
    getAssessment true seedAssessments "job-1" = .error .networkError ∧
    getJobs false store3 {} = .ok (getJobsCore store3 {}) ∧
    getCandidates false [cA, cB] {} = .ok (getCandidatesCore [cA, cB] {}) :=
  ⟨rfl, rfl, rfl, rfl, rfl⟩

/-- C6: `seedData` is a no-op whenever the jobs collection is non-empty;
from empty collections it creates exactly 25 jobs with `order = index + 1`
and distinct ids, exactly 1000 candidates, and exactly 3 assessments (for
jobs 1–3), each a single section of 12 questions cycling through the six
question types with the first half required, the choice types carrying the
fixed four-option scale, the numeric types the 0–10 bounds and all others
the 500-character limit; in consequence a second (sequential) call changes
nothing, leaving exactly 25 / 1000 / 3 records and never duplicating. -/
theorem c6_seeding_idempotent (o o2 : SeedOracle) :
    (∀ db : DB, db.jobs ≠ [] → seedData o db = db) ∧
    (seedData o emptyDB).jobs.length = 25 ∧
    (seedData o emptyDB).jobs.map Job.order = (List.range 25).map (· + 1) ∧
    ((seedData o emptyDB).jobs.map Job.id).Nodup ∧
    (seedData o emptyDB).candidates.length = 1000 ∧
    (seedData o emptyDB).assessments.map Assessment.jobId =
      ["job-1", "job-2", "job-3"] ∧
    (∀ a ∈ (seedData o emptyDB).assessments,
      a.sections.length = 1 ∧
      ∀ s ∈ a.sections,
        s.questions.length = 12 ∧
        s.questions.map Question.type =
          ["single-choice", "multi-choice", "short-text", "long-text",
           "numeric", "file-upload", "single-choice", "multi-choice",
           "short-text", "long-text", "numeric", "file-upload"] ∧
        s.questions.map Question.required =
          [true, true, true, true, true, true,
           false, false, false, false, false, false] ∧
        (∀ q ∈ s.questions,
          q.options =
            if q.type = "single-choice" ∨ q.type = "multi-choice" then
              some ["Beginner", "Intermediate", "Advanced", "Expert"]
            else none) ∧
        (∀ q ∈ s.questions,
          q.validation =
            if q.type = "numeric" then .bounds 0 10 else .maxLen 500)) ∧
    seedData o2 (seedData o emptyDB) = seedData o emptyDB ∧
    (seedData o2 (seedData o emptyDB)).jobs.length = 25 ∧
    (seedData o2 (seedData o emptyDB)).candidates.length = 1000 ∧
    (seedData o2 (seedData o emptyDB)).assessments.length = 3 := by
  have hnoop : ∀ (oo : SeedOracle) (db : DB), db.jobs ≠ [] →
      seedData oo db = db := by
    intro oo db h
    unfold seedData
    rw [if_pos (List.length_pos.mpr h)]
  have hseed : seedData o emptyDB =
      { jobs := seedJobs o, candidates := seedCandidates o,
        assessments := seedAssessments } := by
    simp [seedData, emptyDB]
  have hassess : (seedData o emptyDB).assessments = seedAssessments := by
    rw [hseed]
  have hjne : seedJobs o ≠ [] := by
    intro h
    have := congrArg List.length h
    simp [seedJobs] at this
  have hdouble : seedData o2 (seedData o emptyDB) = seedData o emptyDB := by
    rw [hseed]
    exact hnoop o2 _ hjne
  refine ⟨hnoop o, ?_, ?_, ?_, ?_, ?_, ?_, hdouble, ?_, ?_, ?_⟩
  · rw [hseed]; simp [seedJobs]
  · rw [hseed]
    show ((List.range 25).map (seedJob o)).map Job.order = _
    rw [List.map_map]
    exact List.map_congr_left fun i _ => rfl
  · rw [hseed]
    show (((List.range 25).map (seedJob o)).map Job.id).Nodup
    rw [List.map_map]
    have hm : (List.range 25).map (Job.id ∘ seedJob o) =
        (List.range 25).map (fun i => "job-" ++ toString (i + 1)) :=
      List.map_congr_left fun i _ => rfl
    rw [hm]
    decide
  · rw [hseed]; simp [seedCandidates]
  · rw [hassess]; decide
  · rw [hassess]; decide
  · rw [hdouble, hseed]; simp [seedJobs]
  · rw [hdouble, hseed]; simp [seedCandidates]
  · rw [hdouble, hassess]; decide

/-- Witness for C6: seeding a store that already holds a job changes
nothing. -/
theorem c6_seeding_idempotent_witness :
    seedData constOracle
      { jobs := [jA], candidates := [], assessments := [] } =
      { jobs := [jA], candidates := [], assessments := [] } :=
  (c6_seeding_idempotent constOracle constOracle).1 _ (by decide)
